import Mathlib

/-!
Verification of the `pscan` port scanner (src/src/main.rs) against its
natural-language specification.

The repository ships `main.rs` together with modules `output`, `ports`,
`scanner` and `tools` that are not part of the excerpt; where a claim needs
one of those modules the corresponding definition is modelled from the spec
and marked as such in its doc comment.  Everything else is a direct shallow
embedding of `main.rs`:

* `PortState`, `ScanResult` — the result taxonomy consumed by the collector
  (declared in `scanner.rs`, used in `main.rs` lines 25–43; shapes given by
  spec §3);
* `HostInfo` and its methods — modelled from the spec (§6 output formats);
* `collect_results` — the aggregation loop of `main.rs` lines 22–77,
  split into the per-result update (`applyResult`), the HashMap
  entry-or-insert step (`updateEntry`) and the drain loop (a fold);
* `jsonHosts` / `textSummary` — the two output branches of
  `collect_results` (lines 46–76);
* `parse_addresses` / `parse_single_addresses` — lines 132–160, generic
  over the element parser (the `cidr`/`IpAddr` `FromStr` instances are
  external crates);
* `exit_error`, `sighandlerStep`, `mainConfigure`, `mainRun` — the process
  control flow of lines 162–345.

Durations are modelled as natural numbers (milliseconds); IP addresses as
natural numbers (only equality on them is ever used by the code under
study).
-/

/-- IP address; the collector and parsers only compare addresses for
equality, so an abstract value with decidable equality suffices. -/
abbrev IpAddr : Type := Nat

/-- `scanner::PortState` (spec §3): classification of one probe.
Payloads are durations in milliseconds.  The constructor spelling
`CallTImeout` keeps the source's capitalisation. -/
inductive PortState : Type where
  | Open (latency : Nat)
  | Closed (latency : Nat)
  | ConnTimeout (d : Nat)
  | CallTImeout (d : Nat)
  | HostDown
deriving DecidableEq, Repr

/-- `scanner::ScanResult` (spec §3): one classified probe outcome. -/
structure ScanResult : Type where
  address : IpAddr
  port : Nat
  state : PortState
deriving DecidableEq, Repr

/-- Modelled from the spec: `output::HostInfo` (module `output.rs` is not in
the excerpt).  Per-host record with open/closed/filtered port lists, the
observed latencies (from which the displayed average is computed), and a
host-down flag.  Spec §5 requires aggregation to be order-independent, so
the collections are multisets. -/
structure HostInfo : Type where
  address : IpAddr
  open_ports : Multiset Nat
  closed_ports : Multiset Nat
  filtered_ports : Multiset Nat
  delays : Multiset Nat
  down : Bool
deriving DecidableEq

/-- Modelled from the spec: `HostInfo::create` — fresh record for a host,
no ports recorded, not down. -/
def HostInfo.create (a : IpAddr) : HostInfo :=
  ⟨a, 0, 0, 0, 0, false⟩

/-- Modelled from the spec: record one open port. -/
def HostInfo.add_open_port (h : HostInfo) (p : Nat) : HostInfo :=
  { h with open_ports := p ::ₘ h.open_ports }

/-- Modelled from the spec: record one closed port. -/
def HostInfo.add_closed_port (h : HostInfo) (p : Nat) : HostInfo :=
  { h with closed_ports := p ::ₘ h.closed_ports }

/-- Modelled from the spec: record one filtered port. -/
def HostInfo.add_filtered_port (h : HostInfo) (p : Nat) : HostInfo :=
  { h with filtered_ports := p ::ₘ h.filtered_ports }

/-- Modelled from the spec: record one observed latency. -/
def HostInfo.add_delay (h : HostInfo) (d : Nat) : HostInfo :=
  { h with delays := d ::ₘ h.delays }

/-- Modelled from the spec: mark the host down. -/
def HostInfo.mark_down (h : HostInfo) : HostInfo :=
  { h with down := true }

/-- Modelled from the spec: `HostInfo::is_down`. -/
def HostInfo.is_down (h : HostInfo) : Bool :=
  h.down

/-- Modelled from the spec: `HostInfo::open_port_count`. -/
def HostInfo.open_port_count (h : HostInfo) : Nat :=
  Multiset.card h.open_ports

/-- Modelled from the spec: `HostInfo::closed_port_count`. -/
def HostInfo.closed_port_count (h : HostInfo) : Nat :=
  Multiset.card h.closed_ports

/-- The `match res.state` body of the collector loop (main.rs lines 29–42):
how one `ScanResult` is folded into the per-host record. -/
def applyResult (res : ScanResult) (info : HostInfo) : HostInfo :=
  match res.state with
  | PortState.Open d => (info.add_open_port res.port).add_delay d
  | PortState.Closed d => (info.add_closed_port res.port).add_delay d
  | PortState.ConnTimeout _ => info.add_filtered_port res.port
  | PortState.CallTImeout _ => info.add_filtered_port res.port
  | PortState.HostDown => info.mark_down

/-- `host_infos.entry(res.address).or_insert_with(create)` followed by the
state fold (main.rs lines 26–42), on a HashMap embedded as an association
list: update the entry for `res.address` in place, inserting a fresh record
when absent. -/
def updateEntry (res : ScanResult) : List (IpAddr × HostInfo) → List (IpAddr × HostInfo)
  | [] => [(res.address, applyResult res (HostInfo.create res.address))]
  | (b, h) :: rest =>
    if res.address = b then (b, applyResult res h) :: rest
    else (b, h) :: updateEntry res rest

/-- The drain loop of `collect_results` (main.rs lines 25–43): fold the
received results, in arrival order, into the per-host map. -/
def collect_results (rs : List ScanResult) : List (IpAddr × HostInfo) :=
  rs.foldl (fun m r => updateEntry r m) []

/-- HashMap lookup on the association-list embedding. -/
def lookupHost : List (IpAddr × HostInfo) → IpAddr → Option HostInfo
  | [], _ => none
  | (b, h) :: rest, a => if a = b then some h else lookupHost rest a

/-- `host_infos.values()` on the association-list embedding. -/
def hostValues (m : List (IpAddr × HostInfo)) : List HostInfo :=
  m.map Prod.snd

/-- The JSON branch of `collect_results` (main.rs lines 46–51): hosts kept
in the emitted JSON array. -/
def jsonHosts (m : List (IpAddr × HostInfo)) : List HostInfo :=
  (hostValues m).filter fun h =>
    !h.is_down && (decide (0 < h.open_port_count) || decide (0 < h.closed_port_count))

/-- Loop body of the text branch of `collect_results` (main.rs lines
60–69): a down host only bumps the down counter, a not-down host without
open ports only bumps the no-open-ports counter, every other host's record
is printed (appended to the printed list). -/
def textStep (acc : List HostInfo × Nat × Nat) (info : HostInfo) : List HostInfo × Nat × Nat :=
  if info.is_down then (acc.1, acc.2.1, acc.2.2 + 1)
  else if info.open_port_count = 0 then (acc.1, acc.2.1 + 1, acc.2.2)
  else (acc.1 ++ [info], acc.2.1, acc.2.2)

/-- The whole text branch: fold `textStep` over the per-host records and
pair the printed records with the counts printed on the closing line
(`host_infos.len()`, `no_open_ports`, `down_hosts`). -/
def textSummary (m : List (IpAddr × HostInfo)) : List HostInfo × Nat × Nat × Nat :=
  let r := (hostValues m).foldl textStep ([], 0, 0)
  (r.1, (hostValues m).length, r.2.1, r.2.2)

/-- Unfolding lemma: the text-branch fold accumulates exactly the printed
records and the two counters, whatever the starting accumulator. -/
theorem textStep_foldl (L : List HostInfo) :
    ∀ acc : List HostInfo × Nat × Nat,
      L.foldl textStep acc =
        (acc.1 ++ L.filter (fun h => !h.is_down && decide (0 < h.open_port_count)),
          acc.2.1 + (L.filter (fun h => !h.is_down && decide (h.open_port_count = 0))).length,
          acc.2.2 + (L.filter (fun h => h.is_down)).length) := by
  induction L with
  | nil => intro acc; simp
  | cons x L ih =>
    intro acc
    by_cases hd : x.is_down
    · simp [textStep, hd, ih]
      omega
    · by_cases hz : x.open_port_count = 0
      · simp [textStep, hd, hz, ih]
        omega
      · have hpos : 0 < x.open_port_count := Nat.pos_of_ne_zero hz
        simp [textStep, hd, hz, hpos, ih, List.append_assoc]

/-- C3: when a JSON output file is requested, the emitted array holds
exactly the aggregated hosts that are not down and have at least one open
or one closed port; every other aggregated host is omitted. -/
theorem jsonHosts_exactly_live_hosts (rs : List ScanResult) (h : HostInfo) :
    h ∈ jsonHosts (collect_results rs) ↔
      h ∈ hostValues (collect_results rs) ∧ h.is_down = false ∧
        (0 < h.open_port_count ∨ 0 < h.closed_port_count) := by
  simp [jsonHosts, List.mem_filter, and_assoc]

/-- C4 (amended): the text summary prints the per-host record exactly for
the hosts that are not down and have at least one OPEN port; a not-down
host whose ports are all closed or filtered is only counted among the
hosts without open ports.  The three printed counts are the number of
aggregated hosts, the number of not-down hosts without open ports, and the
number of down hosts. -/
theorem textSummary_prints_open_hosts_and_counts (m : List (IpAddr × HostInfo)) :
    (textSummary m).1 =
        (hostValues m).filter (fun h => !h.is_down && decide (0 < h.open_port_count))
      ∧ (textSummary m).2.1 = (hostValues m).length
      ∧ (textSummary m).2.2.1 =
          ((hostValues m).filter (fun h => !h.is_down && decide (h.open_port_count = 0))).length
      ∧ (textSummary m).2.2.2 = ((hostValues m).filter (fun h => h.is_down)).length := by
  refine ⟨?_, rfl, ?_, ?_⟩ <;> simp [textSummary, textStep_foldl]

/-- C4 (counterexample): after a run whose single result is a CLOSED port,
the aggregated host has a resolved (closed) port, yet the text summary
prints no per-host record at all — the claim that every host with at least
one resolved open-or-closed port is printed fails on the code. -/
theorem textSummary_closed_only_host_not_printed :
    (hostValues (collect_results [⟨1, 80, PortState.Closed 5⟩])).any
        (fun h => decide (0 < h.closed_port_count)) = true
      ∧ (textSummary (collect_results [⟨1, 80, PortState.Closed 5⟩])).1 = [] := by
  constructor <;> decide

/-- C5: how the collector folds one `ScanResult` into the per-host record:
`Open` adds an open port and its latency, `Closed` adds a closed port and
its latency, `ConnTimeout` and `CallTImeout` add a filtered port and no
latency, `HostDown` marks the host down and adds no latency; every other
field is untouched in each case. -/
theorem applyResult_state_folding (a p d : Nat) (h : HostInfo) :
    (applyResult ⟨a, p, PortState.Open d⟩ h).open_ports = p ::ₘ h.open_ports
  ∧ (applyResult ⟨a, p, PortState.Open d⟩ h).delays = d ::ₘ h.delays
  ∧ (applyResult ⟨a, p, PortState.Open d⟩ h).closed_ports = h.closed_ports
  ∧ (applyResult ⟨a, p, PortState.Open d⟩ h).filtered_ports = h.filtered_ports
  ∧ (applyResult ⟨a, p, PortState.Open d⟩ h).down = h.down
  ∧ (applyResult ⟨a, p, PortState.Closed d⟩ h).closed_ports = p ::ₘ h.closed_ports
  ∧ (applyResult ⟨a, p, PortState.Closed d⟩ h).delays = d ::ₘ h.delays
  ∧ (applyResult ⟨a, p, PortState.Closed d⟩ h).open_ports = h.open_ports
  ∧ (applyResult ⟨a, p, PortState.Closed d⟩ h).filtered_ports = h.filtered_ports
  ∧ (applyResult ⟨a, p, PortState.Closed d⟩ h).down = h.down
  ∧ (applyResult ⟨a, p, PortState.ConnTimeout d⟩ h).filtered_ports = p ::ₘ h.filtered_ports
  ∧ (applyResult ⟨a, p, PortState.ConnTimeout d⟩ h).delays = h.delays
  ∧ (applyResult ⟨a, p, PortState.ConnTimeout d⟩ h).open_ports = h.open_ports
  ∧ (applyResult ⟨a, p, PortState.ConnTimeout d⟩ h).closed_ports = h.closed_ports
  ∧ (applyResult ⟨a, p, PortState.ConnTimeout d⟩ h).down = h.down
  ∧ (applyResult ⟨a, p, PortState.CallTImeout d⟩ h).filtered_ports = p ::ₘ h.filtered_ports
  ∧ (applyResult ⟨a, p, PortState.CallTImeout d⟩ h).delays = h.delays
  ∧ (applyResult ⟨a, p, PortState.CallTImeout d⟩ h).open_ports = h.open_ports
  ∧ (applyResult ⟨a, p, PortState.CallTImeout d⟩ h).closed_ports = h.closed_ports
  ∧ (applyResult ⟨a, p, PortState.CallTImeout d⟩ h).down = h.down
  ∧ (applyResult ⟨a, p, PortState.HostDown⟩ h).down = true
  ∧ (applyResult ⟨a, p, PortState.HostDown⟩ h).open_ports = h.open_ports
  ∧ (applyResult ⟨a, p, PortState.HostDown⟩ h).closed_ports = h.closed_ports
  ∧ (applyResult ⟨a, p, PortState.HostDown⟩ h).filtered_ports = h.filtered_ports
  ∧ (applyResult ⟨a, p, PortState.HostDown⟩ h).delays = h.delays :=
  ⟨rfl, rfl, rfl, rfl, rfl, rfl, rfl, rfl, rfl, rfl, rfl, rfl, rfl,
    rfl, rfl, rfl, rfl, rfl, rfl, rfl, rfl, rfl, rfl, rfl, rfl⟩

/-- Per-state contribution of a result to the open-port multiset. -/
def opensOf (r : ScanResult) : Multiset Nat :=
  match r.state with
  | PortState.Open _ => {r.port}
  | _ => 0

/-- Per-state contribution of a result to the closed-port multiset. -/
def closedsOf (r : ScanResult) : Multiset Nat :=
  match r.state with
  | PortState.Closed _ => {r.port}
  | _ => 0

/-- Per-state contribution of a result to the filtered-port multiset. -/
def filteredOf (r : ScanResult) : Multiset Nat :=
  match r.state with
  | PortState.ConnTimeout _ => {r.port}
  | PortState.CallTImeout _ => {r.port}
  | _ => 0

/-- Per-state contribution of a result to the latency multiset. -/
def delaysOf (r : ScanResult) : Multiset Nat :=
  match r.state with
  | PortState.Open d => {d}
  | PortState.Closed d => {d}
  | _ => 0

/-- Whether a result marks its host down. -/
def downOf (r : ScanResult) : Bool :=
  match r.state with
  | PortState.HostDown => true
  | _ => false

/-- `applyResult` only ever adds to the record's multisets and ORs the down
flag: it is the pointwise sum of a per-result contribution with the old
record. -/
theorem applyResult_decompose (r : ScanResult) (h : HostInfo) :
    applyResult r h =
      ⟨h.address, opensOf r + h.open_ports, closedsOf r + h.closed_ports,
        filteredOf r + h.filtered_ports, delaysOf r + h.delays, downOf r || h.down⟩ := by
  rcases r with ⟨a, p, s⟩
  cases s <;>
    simp [applyResult, opensOf, closedsOf, filteredOf, delaysOf, downOf,
      HostInfo.add_open_port, HostInfo.add_closed_port, HostInfo.add_filtered_port,
      HostInfo.add_delay, HostInfo.mark_down, Multiset.singleton_add]

/-- Folding two results into the same record commutes. -/
theorem applyResult_comm (r1 r2 : ScanResult) (h : HostInfo) :
    applyResult r1 (applyResult r2 h) = applyResult r2 (applyResult r1 h) := by
  simp only [applyResult_decompose, HostInfo.mk.injEq]
  refine ⟨trivial, add_left_comm _ _ _, add_left_comm _ _ _, add_left_comm _ _ _,
    add_left_comm _ _ _, ?_⟩
  cases downOf r1 <;> cases downOf r2 <;> rfl

/-- Characterisation of one HashMap update step: the looked-up record
changes exactly at the result's address, where the state fold is applied to
the existing record (or a fresh one). -/
theorem lookupHost_updateEntry (r : ScanResult) (m : List (IpAddr × HostInfo)) (a : IpAddr) :
    lookupHost (updateEntry r m) a =
      if a = r.address then
        some (applyResult r ((lookupHost m a).getD (HostInfo.create r.address)))
      else lookupHost m a := by
  induction m with
  | nil =>
    by_cases hra : a = r.address <;> simp [updateEntry, lookupHost, hra]
  | cons bh rest ih =>
    rcases bh with ⟨b, h⟩
    by_cases hrb : r.address = b
    · by_cases hab : a = b
      · have har : a = r.address := hab.trans hrb.symm
        simp [updateEntry, lookupHost, hrb, hab, har]
      · have har : ¬a = r.address := fun e => hab (e.trans hrb)
        simp [updateEntry, lookupHost, hrb, hab, har]
    · by_cases hab : a = b
      · have har : ¬a = r.address := fun e => hrb (e.symm.trans hab)
        have hbr : ¬b = r.address := fun e => hrb e.symm
        simp [updateEntry, lookupHost, hrb, hab, har, hbr]
      · simp [updateEntry, lookupHost, hrb, hab, ih]

/-- Lookup-equal maps stay lookup-equal after the same update. -/
theorem lookupHost_updateEntry_congr (r : ScanResult) {m m' : List (IpAddr × HostInfo)}
    (hmm : lookupHost m = lookupHost m') :
    lookupHost (updateEntry r m) = lookupHost (updateEntry r m') := by
  funext a
  rw [lookupHost_updateEntry, lookupHost_updateEntry, hmm]

/-- Two consecutive HashMap updates commute up to lookup. -/
theorem lookupHost_updateEntry_swap (r1 r2 : ScanResult) (m : List (IpAddr × HostInfo)) :
    lookupHost (updateEntry r2 (updateEntry r1 m)) =
      lookupHost (updateEntry r1 (updateEntry r2 m)) := by
  funext a
  by_cases h1 : a = r1.address
  · by_cases h2 : a = r2.address
    · have e : r1.address = r2.address := h1.symm.trans h2
      simp [lookupHost_updateEntry, h1, h2, e, applyResult_comm r1 r2]
    · have e : ¬r1.address = r2.address := fun e2 => h2 (h1.trans e2)
      simp [lookupHost_updateEntry, h1, h2, e]
  · by_cases h2 : a = r2.address
    · have e : ¬r2.address = r1.address := fun e2 => h1 (h2.trans e2)
      simp [lookupHost_updateEntry, h1, h2, e]
    · simp [lookupHost_updateEntry, h1, h2]

/-- Lookup-equal starting maps give lookup-equal folds of the same result
list. -/
theorem collect_foldl_congr (l : List ScanResult) :
    ∀ m m' : List (IpAddr × HostInfo), lookupHost m = lookupHost m' →
      lookupHost (l.foldl (fun acc r => updateEntry r acc) m) =
        lookupHost (l.foldl (fun acc r => updateEntry r acc) m') := by
  induction l with
  | nil => intro m m' h; exact h
  | cons x l ih =>
    intro m m' h
    simp only [List.foldl_cons]
    exact ih _ _ (lookupHost_updateEntry_congr x h)

/-- Permutation invariance of the collector fold, generalised over
lookup-equal starting maps. -/
theorem collect_foldl_perm {l1 l2 : List ScanResult} (hp : l1.Perm l2) :
    ∀ m m' : List (IpAddr × HostInfo), lookupHost m = lookupHost m' →
      lookupHost (l1.foldl (fun acc r => updateEntry r acc) m) =
        lookupHost (l2.foldl (fun acc r => updateEntry r acc) m') := by
  induction hp with
  | nil => intro m m' h; exact h
  | cons x _ ih =>
    intro m m' h
    simp only [List.foldl_cons]
    exact ih _ _ (lookupHost_updateEntry_congr x h)
  | swap x y l =>
    intro m m' h
    simp only [List.foldl_cons]
    refine collect_foldl_congr l _ _ ?_
    calc lookupHost (updateEntry x (updateEntry y m))
        = lookupHost (updateEntry y (updateEntry x m)) := lookupHost_updateEntry_swap y x m
      _ = lookupHost (updateEntry y (updateEntry x m')) :=
          lookupHost_updateEntry_congr y (lookupHost_updateEntry_congr x h)
  | trans _ _ ih1 ih2 =>
    intro m m' h
    exact (ih1 m m' h).trans (ih2 m' m' rfl)

/-- C6: the per-host aggregation map (keyed by address) produced by the
collector is the same for every permutation of the order in which the
results are received. -/
theorem collect_results_order_independent (l1 l2 : List ScanResult) (hp : l1.Perm l2) :
    lookupHost (collect_results l1) = lookupHost (collect_results l2) :=
  collect_foldl_perm hp [] [] rfl

/-- Witness for C6 at a concrete pair of permuted result lists. -/
theorem collect_results_order_independent_witness :
    lookupHost (collect_results [⟨1, 80, PortState.Open 5⟩, ⟨2, 81, PortState.Closed 6⟩]) =
      lookupHost (collect_results [⟨2, 81, PortState.Closed 6⟩, ⟨1, 80, PortState.Open 5⟩]) :=
  collect_results_order_independent _ _ (by decide)

/-- Rust `&str` values handed around by main are embedded as character
lists, so that the string operations the code performs (`contains`,
`split`, `trim`) are structural and computable. -/
abbrev Str : Type := List Char

/-- Rust `str::trim` on the character-list embedding: drop whitespace from
both ends. -/
def strTrim (s : Str) : Str :=
  ((s.dropWhile Char.isWhitespace).reverse.dropWhile Char.isWhitespace).reverse

/-- Modelled from the spec: `cidr::IpCidr` — a CIDR block, base address
plus prefix length (external crate; only carried through configuration
here). -/
structure IpCidr : Type where
  base : IpAddr
  plen : Nat
deriving DecidableEq

/-- Modelled from the spec: `ports::PortRange` (module `ports.rs` is not in
the excerpt) — a port range such as `1-100`, first and last port. -/
structure PortRange : Type where
  first : Nat
  last : Nat
deriving DecidableEq

/-- `scanner::ScanParameters` (spec §3), as built in main.rs lines 305–309;
`wait_timeout` in milliseconds. -/
structure ScanParameters : Type where
  concurrent_scans : Nat
  enable_adaptive_timing : Bool
  wait_timeout : Nat
deriving DecidableEq

/-- Everything main hands to the scanner when a scan actually starts
(main.rs lines 326–331): parameters, targets, port range, exclusions, and
the JSON output destination given to the collector. -/
structure ScanSetup : Type where
  params : ScanParameters
  addrs : List IpCidr
  range : PortRange
  excludes : List IpAddr
  output_file : Option Str
deriving DecidableEq

/-- The raw option values clap hands to main (lines 263–307): all
`value_of` results, with the defaulted options always present. -/
structure RawArgs : Type where
  address : Str
  batchCount : Str
  ports : Str
  timeout : Str
  json : Option Str
  exclude : Option Str
  adaptive : Bool

/-- The element parsers main relies on: `FromStr` for `cidr::IpCidr` and
`IpAddr` (external crates), `PortRange::try_from` (module `ports.rs`) and
`str::parse` for the numeric options (standard library).  They are inputs
of the embedding; the claims quantify over them. -/
structure Parsers : Type where
  cidr : Str → Option IpCidr
  ip : Str → Option IpAddr
  portRange : Str → Option PortRange
  nat : Str → Option Nat

/-- Outcome of `app.get_matches_safe()` (main.rs lines 252–261): parsed
arguments, a help/version display, or an argument error. -/
inductive CliResult : Type where
  | ok (args : RawArgs)
  | helpOrVersion (msg : String)
  | err (msg : String)

/-- `exit_error` (main.rs lines 162–170): code starts at 0 and becomes 127
exactly when an error message is supplied; returns the process exit
code. -/
def exit_error (message : Option String) : Nat :=
  match message with
  | some _ => 127
  | none => 0

/-- The loop over comma-separated components shared by `parse_addresses`
and `parse_single_addresses` (main.rs lines 140–142 and 155–157): trim and
parse each component, failing on the first component the element parser
rejects. -/
def parseCommaList {α : Type} (p : Str → Option α) : List Str → Option (List α)
  | [] => some []
  | a :: rest =>
    match p (strTrim a) with
    | none => none
    | some x => (parseCommaList p rest).map (fun xs => x :: xs)

/-- `parse_addresses` (main.rs lines 132–145), generic over the
`cidr::IpCidr` element parser: a comma-free value is trimmed and parsed as
a single entry, a comma-containing value is split on commas and every
component trimmed and parsed. -/
def parse_addresses (p : Str → Option IpCidr) (val : Str) : Option (List IpCidr) :=
  if !(val.contains ',') then (p (strTrim val)).map (fun a => [a])
  else parseCommaList p (val.splitOn ',')

/-- `parse_single_addresses` (main.rs lines 149–160), generic over the
`IpAddr` element parser; same shape as `parse_addresses`. -/
def parse_single_addresses (p : Str → Option IpAddr) (val : Str) : Option (List IpAddr) :=
  if !(val.contains ',') then (p (strTrim val)).map (fun a => [a])
  else parseCommaList p (val.splitOn ',')

/-- The configuration phase of main (lines 263–309): each option is parsed
in source order and the first failure aborts with the corresponding error
message (the embedded messages keep the source's wording, including the
`exlcude` typo; the appended lower-level error text is elided). -/
def mainConfigure (pr : Parsers) (args : RawArgs) : Except String ScanSetup :=
  match parse_addresses pr.cidr args.address with
  | none => Except.error "Unable to parse target address(es)"
  | some addr =>
    match pr.nat args.batchCount with
    | none => Except.error "Unable to parse number of concurrent scans"
    | some batch_count =>
      match pr.portRange args.ports with
      | none => Except.error "Unable to parse port range"
      | some range =>
        match pr.nat args.timeout with
        | none => Except.error "Unable to parse timeout value"
        | some timeout =>
          let output_file := args.json
          match args.exclude with
          | some excl =>
            match parse_single_addresses pr.ip excl with
            | none => Except.error "Unable to parse addresses to exlcude"
            | some excludes =>
              Except.ok ⟨⟨batch_count, args.adaptive, timeout⟩, addr, range, excludes, output_file⟩
          | none =>
            Except.ok ⟨⟨batch_count, args.adaptive, timeout⟩, addr, range, [], output_file⟩

/-- What one process run amounts to at the top level: the exit code, the
scan setup actually handed to `Scanner::new`/`scan` (`none` when the run
never reaches the scanner, so no probe is dispatched and no `ScanResult`
exists), and the lines printed to standard output on the way. -/
structure MainOutcome : Type where
  exitCode : Nat
  scan : Option ScanSetup
  printed : List String

/-- main (lines 252–345): dispatch on the clap outcome, run the
configuration phase, register signals, spawn the collector and scan, then
exit 2 or 0 according to the termination flag.  `sigRegOk` and `spawnOk`
stand for the fallible signal registration (line 313) and collector spawn
(line 322); `stop` is the termination flag's value at the final read (line
342). -/
def mainRun (pr : Parsers) (cli : CliResult) (sigRegOk spawnOk stop : Bool) : MainOutcome :=
  match cli with
  | CliResult.helpOrVersion msg =>
    { exitCode := exit_error none, scan := none, printed := [msg] }
  | CliResult.err msg =>
    { exitCode := exit_error (some msg), scan := none, printed := [] }
  | CliResult.ok args =>
    match mainConfigure pr args with
    | Except.error msg =>
      { exitCode := exit_error (some msg), scan := none, printed := [] }
    | Except.ok setup =>
      if sigRegOk then
        if spawnOk then
          { exitCode := if stop then 2 else 0, scan := some setup, printed := [] }
        else
          { exitCode := if stop then 2 else 0, scan := none, printed := [] }
      else
        { exitCode := exit_error (some "Unable to register signal handler"), scan := none,
          printed := [] }

/-- `SIGINT` (signal number 2). -/
def SIGINT : Nat := 2

/-- `SIGTERM` (signal number 15). -/
def SIGTERM : Nat := 15

/-- Initial value of the termination flag (main.rs line 317:
`AtomicBool::new(false)`). -/
def stopFlagInit : Bool := false

/-- One iteration of `sighandler` (main.rs lines 175–183): on SIGINT or
SIGTERM store `true` into the flag; any other signal only logs a warning
and leaves the flag alone. -/
def sighandlerStep (flag : Bool) (sig : Nat) : Bool :=
  if sig = SIGINT ∨ sig = SIGTERM then true else flag

/-- The flag value after the signal-handler task has consumed a sequence
of delivered signals, starting from the initial flag. -/
def sighandlerRun (sigs : List Nat) : Bool :=
  sigs.foldl sighandlerStep stopFlagInit

/-- Capacity of the result channel (main.rs line 311:
`async_std::channel::bounded(10)`) — a literal constant, not derived from
any configuration value. -/
def channelCapacity : Nat := 10

/-- Modelled from the spec: sending into the bounded result channel
(async_std semantics, spec §5) — the result is appended when a slot is
free, and the producer suspends (`none`) when the queue is full. -/
def channelSend (q : List ScanResult) (x : ScanResult) : Option (List ScanResult) :=
  if q.length < channelCapacity then some (q ++ [x]) else none

/-- Any single failing parse makes the configuration phase return an
error, whatever the other parsers do. -/
theorem mainConfigure_error_cases (pr : Parsers) (args : RawArgs) :
    (parse_addresses pr.cidr args.address = none ∨
      pr.nat args.batchCount = none ∨
      pr.portRange args.ports = none ∨
      pr.nat args.timeout = none ∨
      (∃ e, args.exclude = some e ∧ parse_single_addresses pr.ip e = none)) →
    ∃ m, mainConfigure pr args = Except.error m := by
  intro h
  rcases hA : parse_addresses pr.cidr args.address with _ | addr
  · exact ⟨"Unable to parse target address(es)", by simp [mainConfigure, hA]⟩
  · rcases hB : pr.nat args.batchCount with _ | bc
    · exact ⟨"Unable to parse number of concurrent scans", by simp [mainConfigure, hA, hB]⟩
    · rcases hP : pr.portRange args.ports with _ | rg
      · exact ⟨"Unable to parse port range", by simp [mainConfigure, hA, hB, hP]⟩
      · rcases hT : pr.nat args.timeout with _ | t
        · exact ⟨"Unable to parse timeout value", by simp [mainConfigure, hA, hB, hP, hT]⟩
        · rcases h with h | h | h | h | ⟨e, he, hpe⟩
          · simp [hA] at h
          · simp [hB] at h
          · simp [hP] at h
          · simp [hT] at h
          · exact ⟨"Unable to parse addresses to exlcude",
              by simp [mainConfigure, hA, hB, hP, hT, he, hpe]⟩

/-- C2: a malformed target address/CIDR, exclude address, port range,
timeout or concurrency value makes the configuration phase fail, and a
failed configuration phase exits with code 127 with the scanner never
constructed (`scan = none`), so no probe is dispatched and no `ScanResult`
is produced. -/
theorem config_error_aborts_before_scan :
    (∀ (pr : Parsers) (args : RawArgs),
        (parse_addresses pr.cidr args.address = none ∨
          pr.nat args.batchCount = none ∨
          pr.portRange args.ports = none ∨
          pr.nat args.timeout = none ∨
          (∃ e, args.exclude = some e ∧ parse_single_addresses pr.ip e = none)) →
        ∃ m, mainConfigure pr args = Except.error m)
  ∧ (∀ (pr : Parsers) (args : RawArgs) (msg : String) (sigRegOk spawnOk stop : Bool),
        mainConfigure pr args = Except.error msg →
        mainRun pr (CliResult.ok args) sigRegOk spawnOk stop = ⟨127, none, []⟩) := by
  refine ⟨mainConfigure_error_cases, ?_⟩
  intro pr args msg sigRegOk spawnOk stop h
  simp [mainRun, h, exit_error]

/-- Concrete parsers for the witnesses: reject the empty string, accept
everything else; numbers via the library decimal parser. -/
def prW : Parsers :=
  ⟨fun s => if s = [] then none else some ⟨0, 0⟩,
    fun s => if s = [] then none else some 0,
    fun s => if s = [] then none else some ⟨1, 100⟩,
    fun s => if s = [] then none else some 100⟩

/-- A well-formed command line. -/
def argsOkW : RawArgs :=
  ⟨"10.0.0.1".toList, "100".toList, "1-100".toList, "1000".toList, none, none, false⟩

/-- A command line whose target list has a trailing comma. -/
def argsBadW : RawArgs :=
  ⟨"10.0.0.1,".toList, "100".toList, "1-100".toList, "1000".toList, none, none, false⟩

/-- The setup `mainConfigure` produces from `argsOkW` under `prW`. -/
def setupW : ScanSetup :=
  ⟨⟨100, false, 100⟩, [⟨0, 0⟩], ⟨1, 100⟩, [], none⟩

/-- Witness for C2: with the trailing-comma target list the configuration
phase errors and the run exits 127 without constructing a scanner. -/
theorem config_error_aborts_before_scan_witness :
    (∃ m, mainConfigure prW argsBadW = Except.error m)
  ∧ mainRun prW (CliResult.ok argsBadW) true true false = ⟨127, none, []⟩ :=
  ⟨config_error_aborts_before_scan.1 prW argsBadW (Or.inl (by decide)),
    config_error_aborts_before_scan.2 prW argsBadW "Unable to parse target address(es)"
      true true false (by rfl)⟩

/-- C1: the exit code is 127 when clap rejects the arguments and when the
configuration phase fails; when configuration succeeds and signal
registration works, the run exits 2 if the termination flag reads true and
0 if it reads false; a help/version display exits 0. -/
theorem mainRun_exit_codes :
    (∀ (pr : Parsers) (msg : String) (sigRegOk spawnOk stop : Bool),
        (mainRun pr (CliResult.err msg) sigRegOk spawnOk stop).exitCode = 127)
  ∧ (∀ (pr : Parsers) (args : RawArgs) (msg : String) (sigRegOk spawnOk stop : Bool),
        mainConfigure pr args = Except.error msg →
        (mainRun pr (CliResult.ok args) sigRegOk spawnOk stop).exitCode = 127)
  ∧ (∀ (pr : Parsers) (args : RawArgs) (setup : ScanSetup) (spawnOk : Bool),
        mainConfigure pr args = Except.ok setup →
        ∀ stop : Bool,
          (mainRun pr (CliResult.ok args) true spawnOk stop).exitCode =
            if stop then 2 else 0)
  ∧ (∀ (pr : Parsers) (msg : String) (sigRegOk spawnOk stop : Bool),
        (mainRun pr (CliResult.helpOrVersion msg) sigRegOk spawnOk stop).exitCode = 0) := by
  refine ⟨fun _ _ _ _ _ => rfl, ?_, ?_, fun _ _ _ _ _ => rfl⟩
  · intro pr args msg sigRegOk spawnOk stop h
    simp [mainRun, h, exit_error]
  · intro pr args setup spawnOk h stop
    cases spawnOk <;> simp [mainRun, h]

/-- Witness for C1 at concrete runs. -/
theorem mainRun_exit_codes_witness :
    (mainRun prW (CliResult.err "bad option") true true false).exitCode = 127
  ∧ (mainRun prW (CliResult.ok argsBadW) true true false).exitCode = 127
  ∧ (mainRun prW (CliResult.ok argsOkW) true true true).exitCode = 2
  ∧ (mainRun prW (CliResult.ok argsOkW) true true false).exitCode = 0 := by
  refine ⟨mainRun_exit_codes.1 prW "bad option" true true false,
    mainRun_exit_codes.2.1 prW argsBadW "Unable to parse target address(es)"
      true true false (by rfl), ?_, ?_⟩
  · simpa using mainRun_exit_codes.2.2.1 prW argsOkW setupW true (by rfl) true
  · simpa using mainRun_exit_codes.2.2.1 prW argsOkW setupW true (by rfl) false

/-- C9: a help/version display prints the message and exits 0, not 127;
`exit_error` returns 127 exactly when an error message is supplied and 0
otherwise. -/
theorem help_version_exit_zero :
    (∀ (pr : Parsers) (msg : String) (sigRegOk spawnOk stop : Bool),
        mainRun pr (CliResult.helpOrVersion msg) sigRegOk spawnOk stop = ⟨0, none, [msg]⟩)
  ∧ (∀ m, exit_error (some m) = 127)
  ∧ exit_error none = 0 :=
  ⟨fun _ _ _ _ _ => rfl, fun _ => rfl, rfl⟩

/-- A flag already true never falls back to false, whatever signal
arrives. -/
theorem sighandlerStep_true (s : Nat) : sighandlerStep true s = true := by
  unfold sighandlerStep
  split <;> rfl

/-- Folding any further signals over a true flag keeps it true. -/
theorem sighandler_foldl_true (l : List Nat) : l.foldl sighandlerStep true = true := by
  induction l with
  | nil => rfl
  | cons s l ih => rw [List.foldl_cons, sighandlerStep_true]; exact ih

/-- C7: the termination flag starts false; SIGINT and SIGTERM store true;
every step either stores true or leaves the flag unchanged (false is never
stored); hence once the flag is true after some prefix of signals it stays
true for the rest of the run. -/
theorem stop_flag_monotone :
    stopFlagInit = false
  ∧ (∀ f, sighandlerStep f SIGINT = true ∧ sighandlerStep f SIGTERM = true)
  ∧ (∀ f s, sighandlerStep f s = true ∨ sighandlerStep f s = f)
  ∧ (∀ l l', sighandlerRun l = true → sighandlerRun (l ++ l') = true) := by
  refine ⟨rfl, ?_, ?_, ?_⟩
  · intro f
    constructor <;> simp [sighandlerStep]
  · intro f s
    unfold sighandlerStep
    split
    · exact Or.inl rfl
    · exact Or.inr rfl
  · intro l l' h
    unfold sighandlerRun at h ⊢
    rw [List.foldl_append, h]
    exact sighandler_foldl_true l'

/-- Witness for C7: after a SIGINT the flag stays true across further
(non-termination) signals. -/
theorem stop_flag_monotone_witness : sighandlerRun ([SIGINT] ++ [9]) = true :=
  stop_flag_monotone.2.2.2 [SIGINT] [9] (by decide)

/-- C8: the result channel is created with the fixed capacity 10 (a
literal, independent of every configuration value); a send into a full
queue suspends, a send into a queue with a free slot appends. -/
theorem result_channel_bounded_ten :
    channelCapacity = 10
  ∧ (∀ (q : List ScanResult) (x : ScanResult), q.length = channelCapacity →
        channelSend q x = none)
  ∧ (∀ (q : List ScanResult) (x : ScanResult), q.length < channelCapacity →
        channelSend q x = some (q ++ [x])) := by
  refine ⟨rfl, ?_, ?_⟩
  · intro q x h
    simp [channelSend, h]
  · intro q x h
    simp [channelSend, h]

/-- A sample result for the channel witness. -/
def rW : ScanResult := ⟨1, 80, PortState.HostDown⟩

/-- Witness for C8: a queue of 10 results blocks the next send, the empty
queue accepts one. -/
theorem result_channel_bounded_ten_witness :
    channelSend (List.replicate 10 rW) rW = none
  ∧ channelSend [] rW = some ([] ++ [rW]) :=
  ⟨result_channel_bounded_ten.2.1 (List.replicate 10 rW) rW (by decide),
    result_channel_bounded_ten.2.2 [] rW (by decide)⟩

/-- A component whose trimmed text is empty (for instance after a trailing
comma) fails the whole comma loop, because the element parser rejects the
empty string; nothing is skipped. -/
theorem parseCommaList_none {α : Type} (p : Str → Option α) (hp : p [] = none) :
    ∀ (l : List Str) (c : Str), c ∈ l → strTrim c = [] → parseCommaList p l = none := by
  intro l
  induction l with
  | nil => intro c hc; cases hc
  | cons a rest ih =>
    intro c hc hct
    rcases List.mem_cons.mp hc with rfl | hc
    · have hpa : p (strTrim c) = none := by rw [hct, hp]
      simp [parseCommaList, hpa]
    · rcases h2 : p (strTrim a) with _ | x
      · simp [parseCommaList, h2]
      · simp [parseCommaList, h2, ih c hc hct]

/-- C10: in a comma-containing target or exclude argument an empty or
whitespace-only component makes the parse return an error (components are
never silently skipped), which aborts the run with exit code 127; a
comma-free argument is trimmed and parsed as a single entry. -/
theorem parse_addresses_empty_component_error :
    (∀ (p : Str → Option IpCidr), p [] = none →
        ∀ (val c : Str), val.contains ',' = true → c ∈ val.splitOn ',' → strTrim c = [] →
          parse_addresses p val = none)
  ∧ (∀ (p : Str → Option IpAddr), p [] = none →
        ∀ (val c : Str), val.contains ',' = true → c ∈ val.splitOn ',' → strTrim c = [] →
          parse_single_addresses p val = none)
  ∧ (∀ (p : Str → Option IpCidr) (val : Str), val.contains ',' = false →
        parse_addresses p val = (p (strTrim val)).map (fun a => [a]))
  ∧ (∀ (p : Str → Option IpAddr) (val : Str), val.contains ',' = false →
        parse_single_addresses p val = (p (strTrim val)).map (fun a => [a]))
  ∧ (∀ (pr : Parsers) (args : RawArgs), parse_addresses pr.cidr args.address = none →
        ∀ sigRegOk spawnOk stop,
          (mainRun pr (CliResult.ok args) sigRegOk spawnOk stop).exitCode = 127)
  ∧ (∀ (pr : Parsers) (args : RawArgs) (e : Str), args.exclude = some e →
        parse_single_addresses pr.ip e = none →
        ∀ sigRegOk spawnOk stop,
          (mainRun pr (CliResult.ok args) sigRegOk spawnOk stop).exitCode = 127) := by
  refine ⟨?_, ?_, ?_, ?_, ?_, ?_⟩
  · intro p hp val c hcon hmem htr
    simp only [parse_addresses, hcon, Bool.not_true, Bool.false_eq_true, if_false]
    exact parseCommaList_none p hp _ c hmem htr
  · intro p hp val c hcon hmem htr
    simp only [parse_single_addresses, hcon, Bool.not_true, Bool.false_eq_true, if_false]
    exact parseCommaList_none p hp _ c hmem htr
  · intro p val h
    unfold parse_addresses
    rw [h]
    rfl
  · intro p val h
    unfold parse_single_addresses
    rw [h]
    rfl
  · intro pr args h sigRegOk spawnOk stop
    obtain ⟨m, hm⟩ := mainConfigure_error_cases pr args (Or.inl h)
    simp [mainRun, hm, exit_error]
  · intro pr args e he hpe sigRegOk spawnOk stop
    obtain ⟨m, hm⟩ :=
      mainConfigure_error_cases pr args (Or.inr (Or.inr (Or.inr (Or.inr ⟨e, he, hpe⟩))))
    simp [mainRun, hm, exit_error]

/-- Witness for C10: the trailing-comma target list `"10.0.0.1,"` fails to
parse and the run exits 127; a comma-free argument is trimmed and parsed
as a single entry. -/
theorem parse_addresses_empty_component_error_witness :
    parse_addresses prW.cidr "10.0.0.1,".toList = none
  ∧ parse_single_addresses prW.ip " 10.0.0.1 ".toList =
      (prW.ip (strTrim " 10.0.0.1 ".toList)).map (fun a => [a])
  ∧ (mainRun prW (CliResult.ok argsBadW) true true false).exitCode = 127 :=
  ⟨parse_addresses_empty_component_error.1 prW.cidr (by decide) "10.0.0.1,".toList []
      (by decide) (by decide) (by decide),
    parse_addresses_empty_component_error.2.2.2.1 prW.ip " 10.0.0.1 ".toList (by decide),
    parse_addresses_empty_component_error.2.2.2.2.1 prW argsBadW (by decide) true true false⟩
